import Mathlib

/-! Counter backend (`src/backend/server.js`)

A shallow embedding of the Express application in `server.js` and of the
`counter` table it keeps in PostgreSQL.

* The table is a list of rows; `pool.query` becomes `query`, a function from a
  statement and a store to a reply: the rows or the error the promise settles
  with, and the store the call leaves behind.
* Every SQL statement that occurs in `server.js` is a constructor of `Stmt`.
* An `async` handler either sends a response or its promise rejects, which
  Express 4 does not catch (`Outcome`).
* What belongs to libraries and is not fixed by `server.js` itself (the route
  matching and parameter decoding of Express, the reaction of PostgreSQL to
  spliced text that is not an integer literal) is a field of `Env`.
-/

namespace Counter

/-! ## The persisted table -/

/-- One row of `counter (id, count, created_at, updated_at)`, lines 26-31. -/
structure Row where
  id : Int
  count : Int
  created_at : Nat
  updated_at : Nat
  deriving DecidableEq, Repr

/-- The database behind the pool: whether a connection can be obtained, and
the `counter` table (`none` while the table does not exist). -/
structure Store where
  reachable : Bool
  table : Option (List Row)
  deriving DecidableEq, Repr

/-- Smallest value of an `INTEGER` column (line 28). -/
def INT4_MIN : Int := -2147483648

/-- Largest value of an `INTEGER` column (line 28). -/
def INT4_MAX : Int := 2147483647

/-- Range test PostgreSQL applies when a value is stored in an `INTEGER`
column. -/
def inInt4 (n : Int) : Bool := decide (INT4_MIN ≤ n) && decide (n ≤ INT4_MAX)

/-- Rows selected by `WHERE id = 1`. -/
def counterRows (rows : List Row) : List Row := rows.filter (fun r => decide (r.id = 1))

/-- The singleton Counter of a store: the row with `id = 1` when there is
exactly one. -/
def counterOf (s : Store) : Option Row :=
  match s.table with
  | none => none
  | some rows =>
    match counterRows rows with
    | [r] => some r
    | _ => none

/-- Value of the singleton Counter. -/
def getValue (s : Store) : Option Int := (counterOf s).map (fun r => r.count)

/-- The primary key constraint on `id` (line 27): no two rows share an id. -/
def PrimaryKey (s : Store) : Prop := ((s.table.getD []).map (fun r => r.id)).Nodup

instance (s : Store) : Decidable (PrimaryKey s) := by
  unfold PrimaryKey
  exact inferInstance

/-! ## Statements -/

/-- Reads the text of an optionally negated decimal integer literal. -/
def parseDigits : List Char → Nat → Option Nat
  | [], acc => some acc
  | c :: cs, acc => if c.isDigit then parseDigits cs (acc * 10 + (c.toNat - 48)) else none

/-- An integer literal as PostgreSQL reads it after `count + `: an optional
minus sign followed by at least one decimal digit. -/
def parseIntLiteral (text : String) : Option Int :=
  match text.toList with
  | [] => none
  | '-' :: [] => none
  | '-' :: ds => (parseDigits ds 0).map (fun n => - (n : Int))
  | ds => (parseDigits ds 0).map (fun n => (n : Int))

/-- The statements `server.js` sends through `pool.query`. -/
inductive Stmt where
  /-- Lines 25-32. -/
  | createTable
  /-- Line 35. -/
  | selectAll
  /-- Line 37. -/
  | insertCounter
  /-- Line 59; `count` is the raw path parameter spliced into the text. -/
  | incrementBy (count : String)
  /-- Line 66. -/
  | selectCount
  /-- Lines 83-88. -/
  | increment
  /-- Lines 106-110. -/
  | reset
  deriving DecidableEq, Repr

/-- The statement text handed to `pool.query` (template literals of several
lines are joined with single blanks). -/
def Stmt.text : Stmt → String
  | .createTable =>
    "CREATE TABLE IF NOT EXISTS counter ( id SERIAL PRIMARY KEY, count INTEGER NOT NULL DEFAULT 0, created_at TIMESTAMP DEFAULT CURRENT_TIMESTAMP, updated_at TIMESTAMP DEFAULT CURRENT_TIMESTAMP )"
  | .selectAll => "SELECT * FROM counter WHERE id = 1"
  | .insertCounter => "INSERT INTO counter (id, count) VALUES (1, 0)"
  | .incrementBy count => "UPDATE counter SET count = count + " ++ count ++ " WHERE id = 1"
  | .selectCount => "SELECT count FROM counter WHERE id = 1"
  | .increment =>
    "UPDATE counter SET count = count + 1, updated_at = CURRENT_TIMESTAMP WHERE id = 1 RETURNING count"
  | .reset => "UPDATE counter SET count = 0, updated_at = CURRENT_TIMESTAMP WHERE id = 1"

/-- What `pool.query` settles with, and the store the call leaves behind. The
text of line 59 may hold several statements, so a call can be rejected after
an earlier statement of the same text was committed: an error does not imply
an unchanged store. -/
structure Reply where
  result : Except String (List Row)
  store : Store

/-- A single statement: when it fails the store is as it was. -/
def atomic (s : Store) : Except String (List Row × Store) → Reply
  | .error e => ⟨.error e, s⟩
  | .ok (rows, s1) => ⟨.ok rows, s1⟩

/-- What is outside `server.js`: the libraries it calls. -/
structure Env where
  /-- Express route matching: `matchRoute verb pattern method url` is `none`
  when the route does not match the request; `some (.ok v)` when it matches,
  `v` being the decoded route parameter (the empty string for a route without
  one); `some (.error e)` when it matches and decoding the parameter throws
  `e`. -/
  matchRoute : String → String → String → String → Option (Except String String)
  /-- The catch-all layer `'*'` matches every request and decodes the whole
  path as its parameter: the error this decoding throws, if it throws. -/
  decodeStar : String → Option String
  /-- PostgreSQL executing the text of line 59 when the spliced parameter is
  not an integer literal. -/
  execSpliced : String → Store → Reply

/-- `UPDATE counter SET ... WHERE id = 1` on the rows of the table: every row
with `id = 1` is rewritten by `f`; the statement fails as a whole when a new
`count` does not fit the `INTEGER` column. The second component lists the
rewritten rows (for `RETURNING`). -/
def updateCounter (f : Row → Row) : List Row → Except String (List Row × List Row)
  | [] => .ok ([], [])
  | r :: rs =>
    match updateCounter f rs with
    | .error e => .error e
    | .ok (rs1, ret) =>
      if r.id = 1 then
        if inInt4 (f r).count then .ok (f r :: rs1, f r :: ret)
        else .error "integer out of range"
      else .ok (r :: rs1, ret)

/-- Runs `UPDATE ... WHERE id = 1` against the store. -/
def runUpdate (f : Row → Row) (returning : Bool) (s : Store) :
    Except String (List Row × Store) :=
  match s.table with
  | none => .error "relation \"counter\" does not exist"
  | some rows =>
    match updateCounter f rows with
    | .error e => .error e
    | .ok (rows1, ret) =>
      .ok (if returning then ret else [], { s with table := some rows1 })

/-- `pool.query(stmt)` at time `now` (the value of `CURRENT_TIMESTAMP`). Every
statement whose text is fixed in `server.js` is a single statement. -/
def query (env : Env) (now : Nat) (stmt : Stmt) (s : Store) : Reply :=
  if s.reachable = false then ⟨.error "connect ECONNREFUSED", s⟩
  else
    match stmt with
    | .createTable =>
      match s.table with
      | none => ⟨.ok [], { s with table := some [] }⟩
      | some _ => ⟨.ok [], s⟩
    | .selectAll =>
      match s.table with
      | none => ⟨.error "relation \"counter\" does not exist", s⟩
      | some rows => ⟨.ok (counterRows rows), s⟩
    | .selectCount =>
      match s.table with
      | none => ⟨.error "relation \"counter\" does not exist", s⟩
      | some rows => ⟨.ok (counterRows rows), s⟩
    | .insertCounter =>
      match s.table with
      | none => ⟨.error "relation \"counter\" does not exist", s⟩
      | some rows =>
        if rows.any (fun r => decide (r.id = 1)) then
          ⟨.error "duplicate key value violates unique constraint \"counter_pkey\"", s⟩
        else
          ⟨.ok [], { s with table := some (rows ++ [⟨1, 0, now, now⟩]) }⟩
    | .increment =>
      atomic s (runUpdate (fun r => { r with count := r.count + 1, updated_at := now }) true s)
    | .reset =>
      atomic s (runUpdate (fun r => { r with count := 0, updated_at := now }) false s)
    | .incrementBy count =>
      match parseIntLiteral count with
      | some d => atomic s (runUpdate (fun r => { r with count := r.count + d }) false s)
      | none => env.execSpliced count s

/-! ## Responses -/

/-- A JSON scalar of a response body. -/
inductive JVal where
  | num (n : Int)
  | str (s : String)
  | time (t : Nat)
  deriving DecidableEq, Repr

/-- An HTTP response: status and the fields of the JSON object in its body
(`none` for a response without body). -/
structure Response where
  status : Nat
  body : Option (List (String × JVal))
  deriving DecidableEq, Repr

/-- How a handler invocation ends. -/
inductive Outcome where
  /-- The handler sent a response. -/
  | responded (r : Response)
  /-- The promise of the `async` handler rejected and nothing caught it: no
  response is sent. -/
  | unhandledRejection (message : String)
  deriving DecidableEq, Repr

/-- The result of handling one request. -/
structure Run where
  outcome : Outcome
  store : Store
  issued : List Stmt
  deriving DecidableEq, Repr

/-- The call `res.json(body)`: status 200. -/
def json (body : List (String × JVal)) : Outcome := .responded ⟨200, some body⟩

/-- The call `res.status(code).json(body)`. -/
def statusJson (code : Nat) (body : List (String × JVal)) : Outcome :=
  .responded ⟨code, some body⟩

/-! ## Start-up -/

/-- The result of `initializeDatabase`: the store it leaves and, when it
reached `process.exit(1)`, the error that made it exit. -/
structure InitRun where
  store : Store
  exited : Option String
  deriving DecidableEq, Repr

/-- Lines 23-46. -/
def initializeDatabase (env : Env) (now : Nat) (s : Store) : InitRun :=
  match query env now .createTable s with
  | ⟨.error e, s1⟩ => ⟨s1, some e⟩
  | ⟨.ok _, s1⟩ =>
    match query env now .selectAll s1 with
    | ⟨.error e, s2⟩ => ⟨s2, some e⟩
    | ⟨.ok rows, s2⟩ =>
      if rows.length = 0 then
        match query env now .insertCounter s2 with
        | ⟨.error e, s3⟩ => ⟨s3, some e⟩
        | ⟨.ok _, s3⟩ => ⟨s3, none⟩
      else ⟨s2, none⟩

/-! ## Handlers

Each handler gives what it passes to `res.json`, the store after its
`pool.query` call, and the statements it issued. -/

/-- Lines 49-55. -/
def healthHandler (now : Nat) (s : Store) : Run :=
  ⟨statusJson 200 [("status", .str "healthy"), ("timestamp", .time now),
      ("service", .str "counter-backend")], s, []⟩

/-- Lines 57-61: no `try`, so a rejected query rejects the handler. -/
def incrementByHandler (env : Env) (now : Nat) (count : String) (s : Store) : Run :=
  match query env now (.incrementBy count) s with
  | ⟨.error e, s1⟩ => ⟨.unhandledRejection e, s1, [.incrementBy count]⟩
  | ⟨.ok _, s1⟩ =>
    ⟨json [("message", .str ("Count incremented by " ++ count))], s1, [.incrementBy count]⟩

/-- Lines 64-78; `result.rows[0]?.count || 0`. -/
def countHandler (env : Env) (now : Nat) (s : Store) : Run :=
  match query env now .selectCount s with
  | ⟨.error e, s1⟩ =>
    ⟨statusJson 500 [("error", .str "Failed to fetch count"), ("message", .str e)], s1,
      [.selectCount]⟩
  | ⟨.ok rows, s1⟩ =>
    let count : Int :=
      match rows.head? with
      | none => 0
      | some r => if r.count = 0 then 0 else r.count
    ⟨json [("count", .num count)], s1, [.selectCount]⟩

/-- Lines 81-101; `result.rows[0].count` throws a `TypeError` inside the
`try` when no row was updated. -/
def incrementHandler (env : Env) (now : Nat) (s : Store) : Run :=
  match query env now .increment s with
  | ⟨.error e, s1⟩ =>
    ⟨statusJson 500 [("error", .str "Failed to increment count"), ("message", .str e)], s1,
      [.increment]⟩
  | ⟨.ok rows, s1⟩ =>
    match rows.head? with
    | none =>
      ⟨statusJson 500 [("error", .str "Failed to increment count"),
          ("message", .str "Cannot read properties of undefined (reading 'count')")], s1,
        [.increment]⟩
    | some r => ⟨json [("count", .num r.count)], s1, [.increment]⟩

/-- Lines 104-121. -/
def resetHandler (env : Env) (now : Nat) (s : Store) : Run :=
  match query env now .reset s with
  | ⟨.error e, s1⟩ =>
    ⟨statusJson 500 [("error", .str "Failed to reset count"), ("message", .str e)], s1,
      [.reset]⟩
  | ⟨.ok _, s1⟩ =>
    ⟨json [("count", .num 0), ("message", .str "Counter reset successfully")], s1, [.reset]⟩

/-- Lines 124-129. -/
def notFoundHandler (originalUrl : String) (s : Store) : Run :=
  ⟨statusJson 404 [("error", .str "Endpoint not found"), ("path", .str originalUrl)], s, []⟩

/-- Lines 132-138. -/
def errorMiddleware (message : String) (s : Store) : Run :=
  ⟨statusJson 500 [("error", .str "Internal server error"), ("message", .str message)], s, []⟩

/-! ## The application -/

/-- An incoming request: method in upper case, `req.originalUrl`, and the
error `express.json()` raises for its body, if it raises one. -/
structure Request where
  method : String
  originalUrl : String
  bodyError : Option String
  deriving DecidableEq, Repr

/-- `res.json` ends in `res.send`, which for a `HEAD` request ends the
response without writing the body. -/
def sendFor (method : String) (run : Run) : Run :=
  match run.outcome with
  | .responded r =>
    if method = "HEAD" then { run with outcome := .responded ⟨r.status, none⟩ } else run
  | .unhandledRejection _ => run

/-- The routes and the catch-all layer in registration order (lines 49, 57,
64, 81, 104, 124). A layer whose parameter cannot be decoded hands its error
to the error middleware (line 132). -/
def routes (env : Env) (now : Nat) (req : Request) (s : Store) : Run :=
  match env.matchRoute "get" "/health" req.method req.originalUrl with
  | some (.error e) => errorMiddleware e s
  | some (.ok _) => healthHandler now s
  | none =>
  match env.matchRoute "post" "/api/increment/:count" req.method req.originalUrl with
  | some (.error e) => errorMiddleware e s
  | some (.ok count) => incrementByHandler env now count s
  | none =>
  match env.matchRoute "get" "/api/count" req.method req.originalUrl with
  | some (.error e) => errorMiddleware e s
  | some (.ok _) => countHandler env now s
  | none =>
  match env.matchRoute "post" "/api/increment" req.method req.originalUrl with
  | some (.error e) => errorMiddleware e s
  | some (.ok _) => incrementHandler env now s
  | none =>
  match env.matchRoute "post" "/api/reset" req.method req.originalUrl with
  | some (.error e) => errorMiddleware e s
  | some (.ok _) => resetHandler env now s
  | none =>
  match env.decodeStar req.originalUrl with
  | some e => errorMiddleware e s
  | none => notFoundHandler req.originalUrl s

/-- The middleware and route stack in registration order (lines 10, 11, then
`routes`, 132). `cors()` with its defaults answers every `OPTIONS` request
itself with 204 and no body; an error of `express.json()` skips to the error
middleware. -/
def app (env : Env) (now : Nat) (req : Request) (s : Store) : Run :=
  if req.method = "OPTIONS" then ⟨.responded ⟨204, none⟩, s, []⟩
  else
    match req.bodyError with
    | some e => sendFor req.method (errorMiddleware e s)
    | none => sendFor req.method (routes env now req s)

/-- The routes registered before the catch-all handler, as verb and path
pattern (lines 49, 57, 64, 81, 104). -/
def registeredRoutes : List (String × String) :=
  [("get", "/health"), ("post", "/api/increment/:count"), ("get", "/api/count"),
    ("post", "/api/increment"), ("post", "/api/reset")]

/-- No registered route matches the request. -/
def noRouteMatches (env : Env) (req : Request) : Bool :=
  registeredRoutes.all
    (fun vp => (env.matchRoute vp.1 vp.2 req.method req.originalUrl).isNone)

/-- The rows of the table (none while the table does not exist). -/
def rowsOf (s : Store) : List Row := s.table.getD []

/-- Successive `POST /api/increment` requests, one per entry of `times` (the
clock value of each request): the outcomes in order and the final store. -/
def postIncrements (env : Env) : List Nat → Store → List Outcome × Store
  | [], s => ([], s)
  | now :: rest, s =>
    let r := incrementHandler env now s
    let (outs, s1) := postIncrements env rest r.store
    (r.outcome :: outs, s1)

end Counter

namespace Counter

/-! ## Sample environment and stores -/

/-- Splits a request URL at the first question mark and keeps the path. -/
def urlPath (url : String) : List Char := url.toList.takeWhile (fun c => c ≠ '?')

/-- Drops one trailing slash. -/
def dropSlash (p : List Char) : List Char :=
  match p.reverse with
  | '/' :: rest => if rest.isEmpty then p else rest.reverse
  | _ => p

/-- A hexadecimal digit. -/
def isHex (c : Char) : Bool :=
  c.isDigit || (decide ('a' ≤ c) && decide (c ≤ 'f')) || (decide ('A' ≤ c) && decide (c ≤ 'F'))

/-- Every percent sign is followed by two hexadecimal digits. -/
def percentOk : List Char → Bool
  | [] => true
  | c :: rest =>
    if c = '%' then
      match rest with
      | a :: b :: _ => isHex a && isHex b && percentOk rest
      | _ => false
    else percentOk rest

/-- A sample of the decoding Express 4 applies to a matched parameter: the
text itself when it holds no percent sign, an error when a percent sign is
not followed by two hexadecimal digits. Enough for the requests used in the
examples below, none of which holds a well-formed percent escape. -/
def sampleDecode (text : List Char) : Except String String :=
  if percentOk text then .ok (String.mk text)
  else .error ("Failed to decode param '" ++ String.mk text ++ "'")

/-- A sample of the matching Express 4 performs (case-insensitive, one
optional trailing slash, `GET` routes also answer `HEAD`), enough for the
requests used in the examples below. -/
def expressMatch (verb pattern method url : String) : Option (Except String String) :=
  let methodOk :=
    (verb = "get" ∧ (method = "GET" ∨ method = "HEAD")) ∨ (verb = "post" ∧ method = "POST")
  if ¬ methodOk then none
  else
    let path := (dropSlash (urlPath url)).map Char.toLower
    if pattern = "/api/increment/:count" then
      let stem := "/api/increment/".toList
      if stem.isPrefixOf path then
        let rest := (dropSlash (urlPath url)).drop stem.length
        if rest.isEmpty ∨ rest.contains '/' then none else some (sampleDecode rest)
      else none
    else if path = pattern.toList then some (.ok "") else none

/-- A sample of PostgreSQL on the text of line 59 for three spliced
parameters that are no integer literals.

* `1+1`: the statement `UPDATE counter SET count = count + 1+1 WHERE id = 1`
  adds 2.
* `1;COMMIT;SELECT abc`: the text holds three statements. The first,
  `UPDATE counter SET count = count + 1`, has no `WHERE` and adds 1 to every
  row; `COMMIT` makes that permanent; `SELECT abc WHERE id = 1` is rejected,
  and with it the call.
* any other text is rejected as an unknown column, as `abc` is. -/
def samplePostgres (text : String) (s : Store) : Reply :=
  if text = "1+1" then
    atomic s (runUpdate (fun r => { r with count := r.count + 1 + 1 }) false s)
  else if text = "1;COMMIT;SELECT abc" then
    match s.table with
    | none => ⟨.error "relation \"counter\" does not exist", s⟩
    | some rows =>
      if rows.all (fun r => inInt4 (r.count + 1)) then
        ⟨.error "column \"abc\" does not exist",
          { s with table := some (rows.map (fun r => { r with count := r.count + 1 })) }⟩
      else ⟨.error "integer out of range", s⟩
  else ⟨.error ("column \"" ++ text ++ "\" does not exist"), s⟩

/-- A sample environment: Express 4 matching and decoding, and the sample
PostgreSQL. -/
def sampleEnv : Env where
  matchRoute := expressMatch
  decodeStar := fun url =>
    match sampleDecode (urlPath url) with
    | .ok _ => none
    | .error e => some e
  execSpliced := samplePostgres

/-- A reachable store whose table holds the singleton Counter with the given
value, created and last updated at time 10. -/
def storeWith (v : Int) : Store := ⟨true, some [⟨1, v, 10, 10⟩]⟩

/-- A reachable store whose table exists and is empty. -/
def emptyStore : Store := ⟨true, some []⟩

/-- A reachable database in which the table has not been created. -/
def blankStore : Store := ⟨true, none⟩

/-- A store whose connection is refused. -/
def downStore : Store := ⟨false, some [⟨1, 5, 10, 10⟩]⟩

end Counter

namespace Counter

/-! ## Lemmas on the store -/

theorem counterRows_cons (r : Row) (rs : List Row) :
    counterRows (r :: rs) = if r.id = 1 then r :: counterRows rs else counterRows rs := by
  unfold counterRows
  by_cases h : r.id = 1 <;> simp [List.filter_cons, h]

theorem counterOf_eq_some {s : Store} {r : Row} (h : counterOf s = some r) :
    ∃ rows, s.table = some rows ∧ counterRows rows = [r] := by
  unfold counterOf at h
  cases ht : s.table with
  | none => simp [ht] at h
  | some rows =>
    refine ⟨rows, rfl, ?_⟩
    simp only [ht] at h
    split at h
    · rename_i r1 hr1
      simp only [Option.some.injEq] at h
      rw [hr1, h]
    · simp at h

theorem getValue_eq_some {s : Store} {v : Int} (h : getValue s = some v) :
    ∃ rows r, s.table = some rows ∧ counterRows rows = [r] ∧ r.count = v := by
  unfold getValue at h
  cases hc : counterOf s with
  | none => simp [hc] at h
  | some r =>
    simp only [hc, Option.map_some', Option.some.injEq] at h
    obtain ⟨rows, h1, h2⟩ := counterOf_eq_some hc
    exact ⟨rows, r, h1, h2, h⟩

theorem getValue_of_rows {s : Store} {rows : List Row} {r : Row}
    (ht : s.table = some rows) (hc : counterRows rows = [r]) : getValue s = some r.count := by
  simp [getValue, counterOf, ht, hc]

theorem updateCounter_ok (f : Row → Row) (rows : List Row)
    (h : ∀ r ∈ counterRows rows, inInt4 (f r).count = true) :
    updateCounter f rows =
      .ok (rows.map (fun r => if r.id = 1 then f r else r), (counterRows rows).map f) := by
  induction rows with
  | nil => rfl
  | cons r rs ih =>
    have ih1 := ih (fun x hx => h x (by
      rw [counterRows_cons]; by_cases h1 : r.id = 1 <;> simp [h1, hx]))
    by_cases h1 : r.id = 1
    · have hr : inInt4 (f r).count = true := h r (by rw [counterRows_cons]; simp [h1])
      simp [updateCounter, ih1, h1, hr, counterRows_cons]
    · simp [updateCounter, ih1, h1, counterRows_cons]

theorem counterRows_map (f : Row → Row) (hf : ∀ r, (f r).id = r.id) (rows : List Row) :
    counterRows (rows.map (fun r => if r.id = 1 then f r else r)) = (counterRows rows).map f := by
  induction rows with
  | nil => rfl
  | cons r rs ih =>
    by_cases h1 : r.id = 1
    · have h2 : (f r).id = 1 := by rw [hf, h1]
      simp [counterRows_cons, h1, h2, ih]
    · simp [counterRows_cons, h1, ih]

theorem map_of_no_counter (f : Row → Row) (rows : List Row) (h : counterRows rows = []) :
    rows.map (fun r => if r.id = 1 then f r else r) = rows := by
  induction rows with
  | nil => rfl
  | cons r rs ih =>
    rw [counterRows_cons] at h
    by_cases h1 : r.id = 1
    · simp [h1] at h
    · simp only [h1, if_false] at h
      simp [h1, ih h]

end Counter

namespace Counter

/-! ## Lemmas on the handlers -/

theorem runUpdate_counter (f : Row → Row) (hf : ∀ r, (f r).id = r.id) (returning : Bool)
    {s : Store} {rows : List Row} {r : Row} (ht : s.table = some rows)
    (hc : counterRows rows = [r]) (hb : inInt4 (f r).count = true) :
    runUpdate f returning s =
      .ok (if returning then [f r] else [],
        { s with table := some (rows.map (fun x => if x.id = 1 then f x else x)) }) ∧
    counterRows (rows.map (fun x => if x.id = 1 then f x else x)) = [f r] := by
  have h1 := updateCounter_ok f rows (by simp [hc, hb])
  constructor
  · simp [runUpdate, ht, h1, hc]
  · rw [counterRows_map f hf, hc]; rfl

theorem incrementHandler_ok (env : Env) (now : Nat) (s : Store) (v : Int)
    (hr : s.reachable = true) (hv : getValue s = some v) (hb : inInt4 (v + 1) = true) :
    (incrementHandler env now s).outcome = json [("count", .num (v + 1))] ∧
    (incrementHandler env now s).store.reachable = true ∧
    getValue (incrementHandler env now s).store = some (v + 1) := by
  obtain ⟨rows, r, ht, hc, hrv⟩ := getValue_eq_some hv
  subst hrv
  have h := runUpdate_counter (fun r => { r with count := r.count + 1, updated_at := now })
    (fun _ => rfl) true ht hc hb
  obtain ⟨h1, h2⟩ := h
  have hq : query env now .increment s =
      atomic s (runUpdate (fun r => { r with count := r.count + 1, updated_at := now })
        true s) := by
    simp [query, hr]
  simp only [incrementHandler, hq, h1, atomic, if_true, List.head?_cons]
  refine ⟨trivial, hr, ?_⟩
  exact getValue_of_rows rfl h2

theorem postIncrements_from (env : Env) (times : List Nat) :
    ∀ (s : Store) (v : Int), s.reachable = true → getValue s = some v → INT4_MIN ≤ v + 1 →
      v + (times.length : Int) ≤ INT4_MAX →
      (postIncrements env times s).1 =
        (List.range times.length).map
          (fun (k : Nat) => json [("count", .num (v + (k : Int) + 1))]) ∧
      getValue (postIncrements env times s).2 = some (v + (times.length : Int)) := by
  induction times with
  | nil => intro s v _ hv _ _; simp [postIncrements, hv]
  | cons now rest ih =>
    intro s v hr hv hlo hhi
    have hlen : ((now :: rest).length : Int) = (rest.length : Int) + 1 := by simp
    have hb : inInt4 (v + 1) = true := by
      simp only [inInt4, Bool.and_eq_true, decide_eq_true_eq]
      constructor
      · exact hlo
      · have : (0 : Int) ≤ (rest.length : Int) := Int.natCast_nonneg _
        omega
    obtain ⟨h1, h2, h3⟩ := incrementHandler_ok env now s v hr hv hb
    have hlo1 : INT4_MIN ≤ v + 1 + 1 := by omega
    have hhi1 : v + 1 + (rest.length : Int) ≤ INT4_MAX := by omega
    obtain ⟨i1, i2⟩ := ih (incrementHandler env now s).store (v + 1) h2 h3 hlo1 hhi1
    constructor
    · simp only [postIncrements, h1, i1, List.length_cons, List.range_succ_eq_map, List.map_cons,
        List.map_map]
      congr 1
      · simp
      · apply List.map_congr_left
        intro k _
        simp only [Function.comp, Nat.succ_eq_add_one, Nat.cast_add, Nat.cast_one]
        congr 4
        omega
    · simp only [postIncrements, i2, hlen]
      congr 1
      omega

end Counter

namespace Counter

theorem incrementByHandler_ok (env : Env) (now : Nat) (count : String) (s : Store)
    (v delta : Int) (hr : s.reachable = true) (hv : getValue s = some v)
    (hp : parseIntLiteral count = some delta) (hb : inInt4 (v + delta) = true) :
    (incrementByHandler env now count s).outcome =
      json [("message", .str ("Count incremented by " ++ count))] ∧
    getValue (incrementByHandler env now count s).store = some (v + delta) := by
  obtain ⟨rows, r, ht, hc, hrv⟩ := getValue_eq_some hv
  subst hrv
  obtain ⟨h1, h2⟩ := runUpdate_counter (fun r => { r with count := r.count + delta })
    (fun _ => rfl) false ht hc hb
  have hq : query env now (.incrementBy count) s =
      atomic s (runUpdate (fun r => { r with count := r.count + delta }) false s) := by
    simp [query, hr, hp]
  simp only [incrementByHandler, hq, h1, atomic]
  exact ⟨trivial, getValue_of_rows rfl h2⟩

/-! ### Decimal numerals -/

theorem digitChar_isDigit (k : Nat) (hk : k < 10) :
    (Nat.digitChar k).isDigit = true ∧ (Nat.digitChar k).toNat - 48 = k := by
  interval_cases k <;> decide

theorem parseDigits_toDigitsCore (fuel : Nat) :
    ∀ (n : Nat) (ds : List Char), n < fuel →
      parseDigits (Nat.toDigitsCore 10 fuel n ds) 0 = parseDigits ds n := by
  induction fuel with
  | zero => intro n ds h; omega
  | succ fuel ih =>
    intro n ds h
    obtain ⟨hd1, hd2⟩ := digitChar_isDigit (n % 10) (Nat.mod_lt _ (by decide))
    by_cases h0 : n / 10 = 0
    · have hn : n % 10 = n := by omega
      simp only [Nat.toDigitsCore, h0, if_true, parseDigits, hd1, hd2]
      simp [hn]
    · have hlt : n / 10 < fuel := by omega
      simp only [Nat.toDigitsCore, h0, if_false]
      rw [ih (n / 10) _ hlt]
      simp only [parseDigits, hd1, hd2, if_true]
      congr 1
      omega

theorem parseDigits_repr (n : Nat) : parseDigits (toString n).toList 0 = some n := by
  have h : (toString n).toList = Nat.toDigitsCore 10 (n + 1) n [] := rfl
  rw [h, parseDigits_toDigitsCore (n + 1) n [] (by omega)]
  rfl

theorem parseDigits_head {c : Char} {cs : List Char} {n : Nat}
    (h : parseDigits (c :: cs) 0 = some n) : c.isDigit = true := by
  by_cases hc : c.isDigit = true
  · exact hc
  · simp [parseDigits, hc] at h

theorem toDigits_ne_nil (n : Nat) : (toString n).toList ≠ [] := by
  have h : (toString n).toList = Nat.toDigitsCore 10 (n + 1) n [] := rfl
  rw [h]
  simp only [Nat.toDigitsCore]
  split
  · simp
  · intro hnil
    have := parseDigits_toDigitsCore n (n / 10) [Nat.digitChar (n % 10)] (by omega)
    rw [hnil] at this
    obtain ⟨hd1, _⟩ := digitChar_isDigit (n % 10) (Nat.mod_lt _ (by decide))
    simp [parseDigits, hd1] at this
    omega

end Counter

namespace Counter

theorem parseIntLiteral_of_digits {text : String} {n : Nat}
    (hne : text.toList ≠ []) (h : parseDigits text.toList 0 = some n) :
    parseIntLiteral text = some (n : Int) := by
  unfold parseIntLiteral
  cases hl : text.toList with
  | nil => exact absurd hl hne
  | cons c cs =>
    rw [hl] at h
    have hd := parseDigits_head h
    have hc : c ≠ '-' := by
      intro hc
      rw [hc] at hd
      exact absurd hd (by decide)
    split
    · rename_i heq; simp at heq
    · rename_i heq
      simp only [List.cons.injEq] at heq
      exact absurd heq.1.symm (fun h1 => hc h1.symm)
    · rename_i heq
      simp only [List.cons.injEq] at heq
      exact absurd heq.1.symm (fun h1 => hc h1.symm)
    · simp [h]

theorem parseIntLiteral_neg (n : Nat) :
    parseIntLiteral ("-" ++ toString (n + 1)) = some (-((n + 1 : Nat) : Int)) := by
  have hl : ("-" ++ toString (n + 1)).toList = '-' :: (toString (n + 1)).toList := by
    simp [String.toList]
  unfold parseIntLiteral
  rw [hl]
  have hne := toDigits_ne_nil (n + 1)
  cases hd : (toString (n + 1)).toList with
  | nil => exact absurd hd hne
  | cons c cs =>
    have hp := parseDigits_repr (n + 1)
    rw [hd] at hp
    simp [hp]

/-- The decimal text of an integer is read back as that integer. -/
theorem parseIntLiteral_toString (d : Int) : parseIntLiteral (toString d) = some d := by
  cases d with
  | ofNat n =>
    have h : toString (Int.ofNat n) = toString n := rfl
    rw [h]
    exact parseIntLiteral_of_digits (toDigits_ne_nil n) (parseDigits_repr n)
  | negSucc n =>
    have h : toString (Int.negSucc n) = "-" ++ toString (n + 1) := rfl
    rw [h, parseIntLiteral_neg]
    rfl

end Counter

namespace Counter

/-! ### Reset, read and start-up -/

theorem store_eta {s : Store} {rows : List Row} (ht : s.table = some rows) :
    ({ s with table := some rows } : Store) = s := by
  cases s
  simp only at ht
  subst ht
  rfl

theorem query_reset (env : Env) (now : Nat) {s : Store} {rows : List Row}
    (hr : s.reachable = true) (ht : s.table = some rows) :
    query env now .reset s =
      ⟨.ok [], { s with table := some (rows.map (fun x =>
        if x.id = 1 then { x with count := 0, updated_at := now } else x)) }⟩ := by
  have h1 := updateCounter_ok (fun r => { r with count := 0, updated_at := now }) rows
    (fun _ _ => rfl)
  simp [query, hr, runUpdate, ht, h1, atomic]

theorem resetHandler_eq (env : Env) (now : Nat) {s : Store} {rows : List Row}
    (hr : s.reachable = true) (ht : s.table = some rows) :
    resetHandler env now s =
      ⟨json [("count", .num 0), ("message", .str "Counter reset successfully")],
        { s with table := some (rows.map (fun x =>
          if x.id = 1 then { x with count := 0, updated_at := now } else x)) }, [.reset]⟩ := by
  simp only [resetHandler, query_reset env now hr ht]

theorem countHandler_eq (env : Env) (now : Nat) {s : Store} {rows : List Row}
    (hr : s.reachable = true) (ht : s.table = some rows) :
    (countHandler env now s).outcome =
      json [("count", .num (match (counterRows rows).head? with
        | none => 0
        | some r => if r.count = 0 then 0 else r.count))] ∧
    (countHandler env now s).store = s := by
  have hq : query env now .selectCount s = ⟨.ok (counterRows rows), s⟩ := by
    simp [query, hr, ht]
  simp only [countHandler, hq, and_self]

theorem counterRows_nil_iff (rows : List Row) :
    counterRows rows = [] ↔ rows.any (fun r => decide (r.id = 1)) = false := by
  induction rows with
  | nil => simp [counterRows]
  | cons r rs ih =>
    rw [counterRows_cons]
    by_cases h1 : r.id = 1
    · simp [h1]
    · simp [h1, ih]

theorem counterRows_length_le_one (rows : List Row)
    (h : (rows.map (fun r => r.id)).Nodup) : (counterRows rows).length ≤ 1 := by
  induction rows with
  | nil => simp [counterRows]
  | cons r rs ih =>
    simp only [List.map_cons, List.nodup_cons] at h
    obtain ⟨hnot, hrest⟩ := h
    rw [counterRows_cons]
    by_cases h1 : r.id = 1
    · have hnil : counterRows rs = [] := by
        unfold counterRows
        rw [List.filter_eq_nil_iff]
        intro x hx hx1
        apply hnot
        simp only [decide_eq_true_eq] at hx1
        rw [h1, ← hx1]
        exact List.mem_map_of_mem _ hx
      simp [h1, hnil]
    · simp only [h1, if_false]
      exact ih hrest

theorem length_split (rows : List Row) :
    rows.length =
      (counterRows rows).length + (rows.filter (fun r => decide (r.id ≠ 1))).length := by
  induction rows with
  | nil => simp [counterRows]
  | cons r rs ih =>
    rw [counterRows_cons]
    by_cases h1 : r.id = 1
    · simp [h1, List.filter_cons, ih]; omega
    · simp [h1, List.filter_cons, ih]; omega

theorem filter_others_of_no_counter (rows : List Row) (h : counterRows rows = []) :
    rows.filter (fun r => decide (r.id ≠ 1)) = rows := by
  induction rows with
  | nil => rfl
  | cons r rs ih =>
    rw [counterRows_cons] at h
    by_cases h1 : r.id = 1
    · simp [h1] at h
    · simp only [h1, if_false] at h
      rw [List.filter_cons, ih h]
      simp [h1]

/-- Once the singleton Counter exists, `initializeDatabase` writes nothing. -/
theorem initializeDatabase_of_counter (env : Env) (now : Nat) {s : Store} {rows : List Row}
    {r : Row} (hr : s.reachable = true) (ht : s.table = some rows)
    (hc : counterRows rows = [r]) :
    initializeDatabase env now s = ⟨s, none⟩ ∧
    getValue s = some r.count ∧
    (countHandler env now s).outcome = .responded ⟨200, some [("count", .num r.count)]⟩ := by
  have h1 : query env now .createTable s = ⟨.ok [], s⟩ := by simp [query, hr, ht]
  have h2 : query env now .selectAll s = ⟨.ok (counterRows rows), s⟩ := by
    simp [query, hr, ht]
  refine ⟨?_, getValue_of_rows ht hc, ?_⟩
  · simp [initializeDatabase, h1, h2, hc]
  · rw [(countHandler_eq env now hr ht).1, hc]
    by_cases h0 : r.count = 0
    · simp [h0, json]
    · simp [h0, json]

/-- The store `initializeDatabase` leaves behind on a reachable database. -/
theorem initializeDatabase_eq (env : Env) (now : Nat) (s : Store) (hr : s.reachable = true) :
    initializeDatabase env now s =
      ⟨{ s with table := some (if counterRows (rowsOf s) = [] then
          rowsOf s ++ [⟨1, 0, now, now⟩] else rowsOf s) }, none⟩ := by
  cases ht : s.table with
  | none =>
    simp [initializeDatabase, query, hr, ht, rowsOf, counterRows]
  | some rows =>
    have hc : query env now .createTable s = ⟨.ok [], s⟩ := by simp [query, hr, ht]
    have hs : query env now .selectAll s = ⟨.ok (counterRows rows), s⟩ := by
      simp [query, hr, ht]
    by_cases hz : counterRows rows = []
    · have hany := (counterRows_nil_iff rows).1 hz
      have hi : query env now .insertCounter s =
          ⟨.ok [], { s with table := some (rows ++ [⟨1, 0, now, now⟩]) }⟩ := by
        simp only [query, hr, ht, hany]
        simp
      simp [initializeDatabase, hc, hs, hz, hi, rowsOf, ht]
    · have hlen : ¬ (counterRows rows).length = 0 := by
        intro h0
        exact hz (List.length_eq_zero.1 h0)
      simp [initializeDatabase, hc, hs, hz, hlen, rowsOf, ht, store_eta ht]

end Counter

namespace Counter

/-! ## The increment-by-amount endpoint takes its parameter unchecked -/

/-- C1 (as stated, refuted): the parameter `abc`, which is no integer
literal, is not rejected: `POST /api/increment/abc` builds the statement
`UPDATE counter SET count = count + abc WHERE id = 1` from it and sends it;
the store rejects it, the promise of the handler rejects, and no response
with status 400 is sent. And the parameter `1+1`, no integer literal either,
is answered with 200 and moves a Counter at 5 to 7, so the stored value does
not stay as it was. -/
theorem incrementBy_takes_unchecked_text :
    parseIntLiteral "abc" = none ∧
    (incrementByHandler sampleEnv 20 "abc" (storeWith 5)).issued.map Stmt.text =
      ["UPDATE counter SET count = count + abc WHERE id = 1"] ∧
    (incrementByHandler sampleEnv 20 "abc" (storeWith 5)).outcome =
      .unhandledRejection "column \"abc\" does not exist" ∧
    (¬ ∃ body, (incrementByHandler sampleEnv 20 "abc" (storeWith 5)).outcome =
      .responded ⟨400, body⟩) ∧
    parseIntLiteral "1+1" = none ∧
    (incrementByHandler sampleEnv 20 "1+1" (storeWith 5)).issued.map Stmt.text =
      ["UPDATE counter SET count = count + 1+1 WHERE id = 1"] ∧
    (incrementByHandler sampleEnv 20 "1+1" (storeWith 5)).outcome =
      .responded ⟨200, some [("message", .str "Count incremented by 1+1")]⟩ ∧
    getValue (storeWith 5) = some 5 ∧
    getValue (incrementByHandler sampleEnv 20 "1+1" (storeWith 5)).store = some 7 := by
  refine ⟨by decide, by decide, by decide, ?_, by decide, by decide, by decide, by decide,
    by decide⟩
  rintro ⟨body, h⟩
  have h1 : (incrementByHandler sampleEnv 20 "abc" (storeWith 5)).outcome =
      .unhandledRejection "column \"abc\" does not exist" := by decide
  rw [h1] at h
  cases h

/-- C1 (amended): for every store and every `count` path parameter, integer
or not, the handler of `POST /api/increment/:count` validates nothing: it
never answers with status 400; it issues exactly one statement, whose text is
`UPDATE counter SET count = count + ` followed by the raw parameter and
` WHERE id = 1`; and the store after the request is the store in which that
statement leaves the database, so what becomes of the Counter is decided by
the store alone. -/
theorem incrementBy_performs_no_validation (env : Env) (now : Nat) (count : String)
    (s : Store) :
    (∀ body, (incrementByHandler env now count s).outcome ≠ .responded ⟨400, body⟩) ∧
    (incrementByHandler env now count s).issued = [.incrementBy count] ∧
    (Stmt.incrementBy count).text =
      "UPDATE counter SET count = count + " ++ count ++ " WHERE id = 1" ∧
    (incrementByHandler env now count s).store =
      (query env now (.incrementBy count) s).store := by
  unfold incrementByHandler
  cases hq : query env now (.incrementBy count) s with
  | mk result s1 =>
    cases result with
    | error e =>
      refine ⟨?_, rfl, rfl, rfl⟩
      intro body h
      cases h
    | ok rows =>
      refine ⟨?_, rfl, rfl, rfl⟩
      intro body h
      simp only [json, Outcome.responded.injEq, Response.mk.injEq] at h
      omega

/-- Witness for C1 (amended): the parameter `abc` on a Counter at 5 is
spliced into the one statement issued, and the store stays as the rejected
statement leaves it, here unchanged. -/
theorem incrementBy_performs_no_validation_witness :
    (incrementByHandler sampleEnv 20 "abc" (storeWith 5)).issued = [.incrementBy "abc"] ∧
    (incrementByHandler sampleEnv 20 "abc" (storeWith 5)).store = storeWith 5 :=
  ⟨(incrementBy_performs_no_validation sampleEnv 20 "abc" (storeWith 5)).2.1,
    (incrementBy_performs_no_validation sampleEnv 20 "abc" (storeWith 5)).2.2.2.trans rfl⟩

/-- A rejected request does not imply an untouched Counter: the parameter
`1;COMMIT;SELECT abc` makes the text of line 59 three statements; the update
is committed before the last one is rejected, so the handler ends in a
rejected promise while the Counter has moved from 5 to 6. -/
theorem incrementBy_rejected_after_commit :
    (incrementByHandler sampleEnv 20 "1;COMMIT;SELECT abc" (storeWith 5)).issued.map Stmt.text =
      ["UPDATE counter SET count = count + 1;COMMIT;SELECT abc WHERE id = 1"] ∧
    (incrementByHandler sampleEnv 20 "1;COMMIT;SELECT abc" (storeWith 5)).outcome =
      .unhandledRejection "column \"abc\" does not exist" ∧
    getValue (incrementByHandler sampleEnv 20 "1;COMMIT;SELECT abc" (storeWith 5)).store =
      some 6 := by
  decide

/-! ## Increment -/

/-- C2 (as stated, refuted): on a Counter at 2147483647, the largest value of
the `INTEGER` column, `POST /api/increment` answers 500 and the Counter stays
at 2147483647 instead of moving to 2147483648. -/
theorem increment_at_int4_max :
    getValue (storeWith 2147483647) = some 2147483647 ∧
    (incrementHandler sampleEnv 20 (storeWith 2147483647)).outcome =
      statusJson 500 [("error", .str "Failed to increment count"),
        ("message", .str "integer out of range")] ∧
    getValue (incrementHandler sampleEnv 20 (storeWith 2147483647)).store =
      some 2147483647 := by
  decide

/-- C2 (amended): on a reachable store whose singleton Counter has value `v`
with `v + 1` inside the `INTEGER` range, `POST /api/increment` answers 200
with `count = v + 1` and leaves the Counter at `v + 1`; and as long as
`v + N` does not exceed 2147483647, `N` successive requests leave the Counter
at `v + N`, the request number `k` (counted from 1) answering
`count = v + k`. A freshly initialized Counter is the case `v = 0`. -/
theorem increment_contract (env : Env) (now : Nat) (times : List Nat) (s : Store) (v : Int)
    (hr : s.reachable = true) (hv : getValue s = some v) (hb : inInt4 (v + 1) = true)
    (hN : v + (times.length : Int) ≤ INT4_MAX) :
    (incrementHandler env now s).outcome = json [("count", .num (v + 1))] ∧
    getValue (incrementHandler env now s).store = some (v + 1) ∧
    (postIncrements env times s).1 =
      (List.range times.length).map
        (fun (k : Nat) => json [("count", .num (v + (k : Int) + 1))]) ∧
    getValue (postIncrements env times s).2 = some (v + (times.length : Int)) := by
  obtain ⟨h1, _, h3⟩ := incrementHandler_ok env now s v hr hv hb
  have hlo : INT4_MIN ≤ v + 1 := by
    simp only [inInt4, Bool.and_eq_true, decide_eq_true_eq] at hb
    exact hb.1
  obtain ⟨h4, h5⟩ := postIncrements_from env times s v hr hv hlo hN
  exact ⟨h1, h3, h4, h5⟩

/-- Witness for C2 (amended): three requests on a freshly initialized
Counter. -/
theorem increment_contract_witness :
    (incrementHandler sampleEnv 7 (storeWith 0)).outcome = json [("count", .num (0 + 1))] ∧
    getValue (incrementHandler sampleEnv 7 (storeWith 0)).store = some (0 + 1) ∧
    (postIncrements sampleEnv [7, 8, 9] (storeWith 0)).1 =
      (List.range [7, 8, 9].length).map
        (fun (k : Nat) => json [("count", .num (0 + (k : Int) + 1))]) ∧
    getValue (postIncrements sampleEnv [7, 8, 9] (storeWith 0)).2 =
      some (0 + (([7, 8, 9] : List Nat).length : Int)) :=
  increment_contract sampleEnv 7 [7, 8, 9] (storeWith 0) 0 rfl (by decide) (by decide)
    (by decide)

/-! ## Increment by an amount -/

/-- C3 (as stated, refuted): on a Counter at 2147483647 the request
`POST /api/increment/1` is rejected by the store with an out-of-range error
and the Counter stays at 2147483647 instead of moving to 2147483648. -/
theorem incrementBy_at_int4_max :
    getValue (storeWith 2147483647) = some 2147483647 ∧
    toString (1 : Int) = "1" ∧
    (incrementByHandler sampleEnv 20 "1" (storeWith 2147483647)).outcome =
      .unhandledRejection "integer out of range" ∧
    getValue (incrementByHandler sampleEnv 20 "1" (storeWith 2147483647)).store =
      some 2147483647 := by
  decide

/-- C3 (amended): for all integers `v` and `delta` (negative and zero
included) with `v + delta` inside the `INTEGER` range, the request
`POST /api/increment/<delta>`, `delta` written in decimal, on a reachable
store whose singleton Counter has value `v` answers with the message
`Count incremented by <delta>` and leaves the Counter at `v + delta`. -/
theorem incrementBy_adds_delta (env : Env) (now : Nat) (s : Store) (v delta : Int)
    (hr : s.reachable = true) (hv : getValue s = some v)
    (hb : inInt4 (v + delta) = true) :
    (incrementByHandler env now (toString delta) s).outcome =
      json [("message", .str ("Count incremented by " ++ toString delta))] ∧
    getValue (incrementByHandler env now (toString delta) s).store = some (v + delta) :=
  incrementByHandler_ok env now (toString delta) s v delta hr hv
    (parseIntLiteral_toString delta) hb

/-- Witness for C3 (amended): a Counter at 5 incremented by -3 ends at 2. -/
theorem incrementBy_adds_delta_witness :
    toString (-3 : Int) = "-3" ∧
    (incrementByHandler sampleEnv 20 (toString (-3 : Int)) (storeWith 5)).outcome =
      json [("message", .str ("Count incremented by " ++ toString (-3 : Int)))] ∧
    getValue (incrementByHandler sampleEnv 20 (toString (-3 : Int)) (storeWith 5)).store =
      some (5 + -3) :=
  ⟨by decide, incrementBy_adds_delta sampleEnv 20 (storeWith 5) 5 (-3) rfl (by decide)
    (by decide)⟩

end Counter

namespace Counter

/-! ## Reset -/

/-- C4: on every reachable store whose `counter` table exists, whatever its
rows and whatever the prior Counter value, `POST /api/reset` answers 200 with
`count = 0`, and a `GET /api/count` performed right afterwards answers 200
with the body `count = 0`. -/
theorem reset_then_count (env : Env) (now later : Nat) (s : Store) (rows : List Row)
    (hr : s.reachable = true) (ht : s.table = some rows) :
    (resetHandler env now s).outcome =
      .responded ⟨200, some [("count", .num 0),
        ("message", .str "Counter reset successfully")]⟩ ∧
    (countHandler env later (resetHandler env now s).store).outcome =
      .responded ⟨200, some [("count", .num 0)]⟩ := by
  rw [resetHandler_eq env now hr ht]
  refine ⟨rfl, ?_⟩
  have h := (countHandler_eq env later
    (s := { s with table := some (rows.map (fun x =>
      if x.id = 1 then { x with count := 0, updated_at := now } else x)) }) hr rfl).1
  rw [h, counterRows_map (fun x => { x with count := 0, updated_at := now }) (fun _ => rfl)]
  cases counterRows rows with
  | nil => rfl
  | cons r rs => rfl

/-- Witness for C4: a Counter at 41 is reset and then read. -/
theorem reset_then_count_witness :
    (resetHandler sampleEnv 20 (storeWith 41)).outcome =
      .responded ⟨200, some [("count", .num 0),
        ("message", .str "Counter reset successfully")]⟩ ∧
    (countHandler sampleEnv 21 (resetHandler sampleEnv 20 (storeWith 41)).store).outcome =
      .responded ⟨200, some [("count", .num 0)]⟩ :=
  reset_then_count sampleEnv 20 21 (storeWith 41) [⟨1, 41, 10, 10⟩] rfl rfl

/-! ## Start-up -/

/-- C5: on every reachable store that respects the primary key,
`initializeDatabase` finishes without exiting; running it a second time
changes nothing; afterwards the table holds exactly one record with `id = 1`
(and one record more than the records with another id it held before); a
Counter that existed with value `v` still has value `v`; and when none
existed the Counter has value 0 and `GET /api/count` answers `count = 0`. -/
theorem initializeDatabase_idempotent (env : Env) (now later : Nat) (s : Store) (v : Int)
    (hr : s.reachable = true) (hk : PrimaryKey s) :
    (initializeDatabase env now s).exited = none ∧
    initializeDatabase env later (initializeDatabase env now s).store =
      ⟨(initializeDatabase env now s).store, none⟩ ∧
    (counterRows (rowsOf (initializeDatabase env now s).store)).length = 1 ∧
    (rowsOf (initializeDatabase env now s).store).length =
      ((rowsOf s).filter (fun r => decide (r.id ≠ 1))).length + 1 ∧
    (getValue s = some v → getValue (initializeDatabase env now s).store = some v) ∧
    (getValue s = none →
      getValue (initializeDatabase env now s).store = some 0 ∧
      (countHandler env later (initializeDatabase env now s).store).outcome =
        .responded ⟨200, some [("count", .num 0)]⟩) := by
  have hle : (counterRows (rowsOf s)).length ≤ 1 := counterRows_length_le_one (rowsOf s) hk
  by_cases hz : counterRows (rowsOf s) = []
  · -- no Counter yet: one is inserted
    have hnew : counterRows (rowsOf s ++ [(⟨1, 0, now, now⟩ : Row)]) = [⟨1, 0, now, now⟩] := by
      unfold counterRows at hz ⊢
      rw [List.filter_append, hz]
      rfl
    have hs1 : initializeDatabase env now s =
        ⟨{ s with table := some (rowsOf s ++ [⟨1, 0, now, now⟩]) }, none⟩ := by
      rw [initializeDatabase_eq env now s hr, if_pos hz]
    rw [hs1]
    have hfix := initializeDatabase_of_counter env later
      (s := { s with table := some (rowsOf s ++ [⟨1, 0, now, now⟩]) }) hr rfl hnew
    refine ⟨rfl, hfix.1, ?_, ?_, ?_, ?_⟩
    · show (counterRows (rowsOf s ++ [(⟨1, 0, now, now⟩ : Row)])).length = 1
      rw [hnew]; rfl
    · show (rowsOf s ++ [(⟨1, 0, now, now⟩ : Row)]).length = _
      rw [filter_others_of_no_counter _ hz]
      simp
    · intro hv
      obtain ⟨rows, r, h1, h2, _⟩ := getValue_eq_some hv
      simp [rowsOf, h1, h2] at hz
    · intro _
      exact ⟨hfix.2.1, hfix.2.2⟩
  · -- a Counter exists: nothing is written
    obtain ⟨r, hone⟩ : ∃ r, counterRows (rowsOf s) = [r] := by
      cases hc : counterRows (rowsOf s) with
      | nil => exact absurd hc hz
      | cons r rs =>
        rw [hc] at hle
        cases rs with
        | nil => exact ⟨r, rfl⟩
        | cons r1 rs1 => simp at hle
    obtain ⟨rows, ht⟩ : ∃ rows, s.table = some rows := by
      cases ht : s.table with
      | none => simp [rowsOf, ht, counterRows] at hz
      | some rows => exact ⟨rows, rfl⟩
    have hro : rowsOf s = rows := by simp [rowsOf, ht]
    rw [hro] at hone
    have hfix := initializeDatabase_of_counter env now hr ht hone
    have hfix1 := initializeDatabase_of_counter env later hr ht hone
    rw [hfix.1]
    refine ⟨rfl, hfix1.1, ?_, ?_, ?_, ?_⟩
    · show (counterRows (rowsOf s)).length = 1
      rw [hro, hone]; rfl
    · show (rowsOf s).length = _
      rw [hro, length_split rows, hone]
      simp only [List.length_singleton]
      omega
    · exact fun hv => hv
    · intro hnone
      rw [getValue_of_rows ht hone] at hnone
      cases hnone

/-- Witness for C5: start-up on a database without the table. -/
theorem initializeDatabase_idempotent_witness :
    (initializeDatabase sampleEnv 20 blankStore).store = ⟨true, some [⟨1, 0, 20, 20⟩]⟩ ∧
    (initializeDatabase sampleEnv 30 (initializeDatabase sampleEnv 20 blankStore).store).store =
      (initializeDatabase sampleEnv 20 blankStore).store ∧
    getValue (initializeDatabase sampleEnv 20 blankStore).store = some 0 :=
  ⟨by decide,
    congrArg InitRun.store
      (initializeDatabase_idempotent sampleEnv 20 30 blankStore 0 rfl (by decide)).2.1,
    ((initializeDatabase_idempotent sampleEnv 20 30 blankStore 0 rfl (by decide)).2.2.2.2.2
      (by decide)).1⟩

end Counter

namespace Counter

/-! ## Store failures -/

/-- C6 (the code at the failing input): with the connection refused, the
handlers of `GET /api/count`, `POST /api/increment` and `POST /api/reset`
answer 500 with a JSON error body, while the handler of
`POST /api/increment/1`, which has no `try`, sends no response: the store
error leaves it as a rejected promise. -/
theorem incrementBy_store_failure_escapes :
    (countHandler sampleEnv 20 downStore).outcome =
      .responded ⟨500, some [("error", .str "Failed to fetch count"),
        ("message", .str "connect ECONNREFUSED")]⟩ ∧
    (incrementHandler sampleEnv 20 downStore).outcome =
      .responded ⟨500, some [("error", .str "Failed to increment count"),
        ("message", .str "connect ECONNREFUSED")]⟩ ∧
    (resetHandler sampleEnv 20 downStore).outcome =
      .responded ⟨500, some [("error", .str "Failed to reset count"),
        ("message", .str "connect ECONNREFUSED")]⟩ ∧
    (incrementByHandler sampleEnv 20 "1" downStore).outcome =
      .unhandledRejection "connect ECONNREFUSED" ∧
    (app sampleEnv 20 ⟨"POST", "/api/increment/1", none⟩ downStore).outcome =
      .unhandledRejection "connect ECONNREFUSED" := by
  decide

/-! ## A missing singleton -/

/-- C7 (as stated, refuted): on a reachable store whose table holds no record
with `id = 1`, `POST /api/reset` answers 200 with the success body
`count = 0`, `Counter reset successfully`. -/
theorem reset_without_counter_succeeds :
    counterOf emptyStore = none ∧
    (resetHandler sampleEnv 20 emptyStore).outcome =
      .responded ⟨200, some [("count", .num 0),
        ("message", .str "Counter reset successfully")]⟩ := by
  decide

/-- C7 (amended): on a reachable store whose table exists and holds no record
with `id = 1`, `POST /api/increment` fails with a 500 error response and
`POST /api/reset` answers 200 with `count = 0` and the success message; both
leave the store unchanged, so the missing singleton is not recreated. -/
theorem missing_counter (env : Env) (now : Nat) (s : Store) (rows : List Row)
    (hr : s.reachable = true) (ht : s.table = some rows) (hc : counterRows rows = []) :
    (incrementHandler env now s).outcome =
      .responded ⟨500, some [("error", .str "Failed to increment count"),
        ("message", .str "Cannot read properties of undefined (reading 'count')")]⟩ ∧
    (incrementHandler env now s).store = s ∧
    (resetHandler env now s).outcome =
      .responded ⟨200, some [("count", .num 0),
        ("message", .str "Counter reset successfully")]⟩ ∧
    (resetHandler env now s).store = s := by
  have hu := updateCounter_ok (fun r => { r with count := r.count + 1, updated_at := now }) rows
    (by simp [hc])
  rw [map_of_no_counter _ rows hc, hc] at hu
  have hq : query env now .increment s = ⟨.ok [], s⟩ := by
    have hrun : runUpdate (fun r => { r with count := r.count + 1, updated_at := now }) true s =
        .ok ([], { s with table := some rows }) := by
      simp [runUpdate, ht, hu]
    rw [store_eta ht] at hrun
    simp only [query, hr, Bool.true_eq_false, if_false, hrun, atomic]
  rw [resetHandler_eq env now hr ht, map_of_no_counter _ rows hc, store_eta ht]
  simp only [incrementHandler, hq, List.head?_nil]
  refine ⟨?_, ?_, ?_, ?_⟩ <;> first | rfl | trivial

/-- Witness for C7 (amended): the empty table. -/
theorem missing_counter_witness :
    (incrementHandler sampleEnv 20 emptyStore).outcome =
      .responded ⟨500, some [("error", .str "Failed to increment count"),
        ("message", .str "Cannot read properties of undefined (reading 'count')")]⟩ ∧
    (incrementHandler sampleEnv 20 emptyStore).store = emptyStore ∧
    (resetHandler sampleEnv 20 emptyStore).outcome =
      .responded ⟨200, some [("count", .num 0),
        ("message", .str "Counter reset successfully")]⟩ ∧
    (resetHandler sampleEnv 20 emptyStore).store = emptyStore :=
  missing_counter sampleEnv 20 emptyStore [] rfl rfl rfl

/-! ## Timestamps -/

/-- C8 (the code at the failing input): at time 20, on a Counter created and
last updated at time 10, `POST /api/increment` and `POST /api/reset` move
`updated_at` to 20 and keep `created_at`, while `POST /api/increment/5`
changes `count` and leaves `updated_at` at 10. -/
theorem incrementBy_keeps_updated_at :
    (incrementHandler sampleEnv 20 (storeWith 0)).store = ⟨true, some [⟨1, 1, 10, 20⟩]⟩ ∧
    (resetHandler sampleEnv 20 (storeWith 7)).store = ⟨true, some [⟨1, 0, 10, 20⟩]⟩ ∧
    (incrementByHandler sampleEnv 20 "5" (storeWith 0)).store =
      ⟨true, some [⟨1, 5, 10, 10⟩]⟩ := by
  decide

/-! ## Unmatched requests -/

/-- C9 (as stated, refuted): four requests that match no registered route
and are not answered with 404 and the JSON body. `OPTIONS /unknown/path`
gets the 204 of the `cors()` middleware; `HEAD /unknown/path` gets 404
without a body; `GET /unknown/%E0%A4%A`, whose path cannot be decoded, and
`POST /unknown/path` with a body `express.json()` rejects get the 500 of the
error middleware. -/
theorem unmatched_requests_without_404_body :
    noRouteMatches sampleEnv ⟨"OPTIONS", "/unknown/path", none⟩ = true ∧
    (app sampleEnv 20 ⟨"OPTIONS", "/unknown/path", none⟩ emptyStore).outcome =
      .responded ⟨204, none⟩ ∧
    noRouteMatches sampleEnv ⟨"HEAD", "/unknown/path", none⟩ = true ∧
    (app sampleEnv 20 ⟨"HEAD", "/unknown/path", none⟩ emptyStore).outcome =
      .responded ⟨404, none⟩ ∧
    noRouteMatches sampleEnv ⟨"GET", "/unknown/%E0%A4%A", none⟩ = true ∧
    (app sampleEnv 20 ⟨"GET", "/unknown/%E0%A4%A", none⟩ emptyStore).outcome =
      .responded ⟨500, some [("error", .str "Internal server error"),
        ("message", .str "Failed to decode param '/unknown/%E0%A4%A'")]⟩ ∧
    noRouteMatches sampleEnv ⟨"POST", "/unknown/path", some "Unexpected end of JSON input"⟩ =
      true ∧
    (app sampleEnv 20 ⟨"POST", "/unknown/path", some "Unexpected end of JSON input"⟩
        emptyStore).outcome =
      .responded ⟨500, some [("error", .str "Internal server error"),
        ("message", .str "Unexpected end of JSON input")]⟩ := by
  decide

/-- C9 (amended): every request that passes the middleware (its method is not
`OPTIONS` and `express.json()` accepts its body), whose path the catch-all
layer can decode, and that matches none of the registered routes is answered
with status 404; the body is `error = Endpoint not found`,
`path = req.originalUrl`, except for a `HEAD` request, whose response has no
body; no statement is issued and the store is unchanged. -/
theorem unmatched_request_404 (env : Env) (now : Nat) (req : Request) (s : Store)
    (hm : req.method ≠ "OPTIONS") (hb : req.bodyError = none)
    (hd : env.decodeStar req.originalUrl = none)
    (hn : noRouteMatches env req = true) :
    app env now req s =
      ⟨.responded ⟨404, if req.method = "HEAD" then none else
        some [("error", .str "Endpoint not found"), ("path", .str req.originalUrl)]⟩,
        s, []⟩ := by
  simp only [noRouteMatches, registeredRoutes, List.all_cons, List.all_nil, Bool.and_true,
    Bool.and_eq_true, Option.isNone_iff_eq_none] at hn
  obtain ⟨h1, h2, h3, h4, h5⟩ := hn
  simp only [app, hm, if_false, hb, routes, h1, h2, h3, h4, h5, hd, notFoundHandler, sendFor,
    statusJson]
  by_cases hh : req.method = "HEAD"
  · simp [hh]
  · simp [hh]

/-- Witness for C9 (amended): `GET /unknown/path` gets the 404 with the JSON
body, `HEAD /unknown/path` the 404 without body. -/
theorem unmatched_request_404_witness :
    app sampleEnv 20 ⟨"GET", "/unknown/path", none⟩ (storeWith 5) =
      ⟨.responded ⟨404, some [("error", .str "Endpoint not found"),
        ("path", .str "/unknown/path")]⟩, storeWith 5, []⟩ ∧
    app sampleEnv 20 ⟨"HEAD", "/unknown/path", none⟩ (storeWith 5) =
      ⟨.responded ⟨404, none⟩, storeWith 5, []⟩ :=
  ⟨(unmatched_request_404 sampleEnv 20 ⟨"GET", "/unknown/path", none⟩ (storeWith 5)
      (by decide) rfl (by decide) (by decide)).trans (by decide),
    (unmatched_request_404 sampleEnv 20 ⟨"HEAD", "/unknown/path", none⟩ (storeWith 5)
      (by decide) rfl (by decide) (by decide)).trans (by decide)⟩

end Counter
